import Mathlib

/-!
Verification development for the flat-db query front-end (`db_cli.py`).

The file shallowly embeds the lexer (`Lexer.tokenize` driven by `TOKEN_SPEC`)
and the recursive-descent parser (`Parser`) of the source, and proves the
frozen specification claims about them.

Modelling conventions:
* Python's `re.finditer` over the alternation built from `TOKEN_SPEC` scans the
  input left to right; at each position the alternatives are tried in the
  listed order (Python regex alternation is ordered choice, not longest
  match), each alternative itself matching greedily with backtracking.
* The quoted-string pattern `'(?:''|[^'])*'` is modelled operationally with
  its backtracking behaviour: the scan consumes `''` pairs greedily and, if it
  runs off the end of the input, backs up into the most recently consumed
  pair so that its first quote becomes the terminator.
* Keyword matching models the surrounding `\b` word boundaries (ASCII word
  characters) and `re.IGNORECASE`.
* `sys.exit` inside `Parser.error` and the `ValueError` of the lexer are
  modelled as `Except` errors.  `Parser.error` reports the position of the
  token at the *current* cursor (which for the data-type check is the token
  after the offending keyword, exactly as in the source).
* Mutable cursor state (`self.pos`) is modelled by passing the remaining
  suffix of the token list; reading past the end of the token list
  (Python `IndexError`) is the `indexOut` error.
* The recursive parser loops are given a fuel parameter; the top entry point
  supplies a budget strictly larger than any possible recursion depth, so
  `outOfFuel` is a modelling artefact that never fires from `parseTokens`.
-/

namespace DbCli

/-- The single-quote character, kept abstract as a named constant. -/
def qc : Char := Char.ofNat 39

/-- The string consisting of one single-quote character. -/
def sqStr : String := String.mk [qc]

/-- ASCII decimal digit test (`\d` of the NUMBER pattern). -/
def isDigitChar (c : Char) : Bool := 48 ≤ c.toNat && c.toNat ≤ 57

/-- ASCII letter test (for the ID pattern `[a-zA-Z_][a-zA-Z0-9_]*`). -/
def isAlphaChar (c : Char) : Bool :=
  (65 ≤ c.toNat && c.toNat ≤ 90) || (97 ≤ c.toNat && c.toNat ≤ 122)

/-- ASCII word character (`\w`), used for the `\b` boundaries of KEYWORD. -/
def isWordChar (c : Char) : Bool := isDigitChar c || isAlphaChar c || c = '_'

/-- Code point of the upper-case version of an ASCII character
(`str.upper()` restricted to ASCII, which is all the lexer produces). -/
def upperNat (c : Char) : Nat :=
  if 97 ≤ c.toNat && c.toNat ≤ 122 then c.toNat - 32 else c.toNat

/-- Upper-case an ASCII character, as `str.upper()` does. -/
def upperChar (c : Char) : Char :=
  if 97 ≤ c.toNat && c.toNat ≤ 122 then Char.ofNat (c.toNat - 32) else c

/-- `value.upper()` on strings (ASCII). -/
def strUpper (s : String) : String := String.mk (s.data.map upperChar)

/-- A lexer token: `Token(type, value, pos)` of the source. -/
structure Token where
  type : String
  value : String
  pos : Nat
deriving DecidableEq, Repr

/-- `NUMBER: -?\d+` — optional minus sign followed by at least one digit,
greedy.  Returns the number of characters matched. -/
def matchNumber (cs : List Char) : Option Nat :=
  match cs with
  | [] => none
  | c :: rest =>
    if c = '-' then
      let d := (rest.takeWhile isDigitChar).length
      if d = 0 then none else some (d + 1)
    else
      let d := ((c :: rest).takeWhile isDigitChar).length
      if d = 0 then none else some d

/-- Body scan of `STRING: '(?:''|[^'])*'` after the opening quote.
`acc` counts body characters consumed so far, `lastPair` records the offset of
the first quote of the most recently consumed `''` pair (the backtracking
target when the scan runs off the end of the input).  Returns the number of
characters matched after the opening quote (body plus closing quote). -/
def matchStringAux : List Char → Nat → Option Nat → Option Nat
  | [], _, lastPair =>
    match lastPair with
    | some p => some (p + 1)
    | none => none
  | [c1], acc, lastPair =>
    if c1 = qc then some (acc + 1)
    else
      match lastPair with
      | some p => some (p + 1)
      | none => none
  | c1 :: c2 :: rest, acc, lastPair =>
    if c1 = qc then
      if c2 = qc then matchStringAux rest (acc + 2) (some acc)
      else some (acc + 1)
    else matchStringAux (c2 :: rest) (acc + 1) lastPair

/-- `STRING: '(?:''|[^'])*'` — total length of the match (both quotes
included), if the pattern matches at the start of `cs`. -/
def matchStringPat (cs : List Char) : Option Nat :=
  match cs with
  | [] => none
  | c :: rest =>
    if c = qc then (matchStringAux rest 0 none).map (· + 1) else none

/-- The keyword alternatives of `TOKEN_SPEC`, in their source order. -/
def keywords : List String :=
  ["SELECT", "FROM", "WHERE", "CREATE", "TABLE", "INSERT", "INTO", "VALUES",
   "LIMIT", "AND", "OR", "INT", "BIGINT", "TEXT", "NULL"]

/-- Case-insensitive prefix test: do the characters of the keyword appear,
up to ASCII case, at the head of the input? -/
def ciStartsWith : List Char → List Char → Bool
  | [], _ => true
  | _ :: _, [] => false
  | k :: ks, c :: cs => (upperNat c = upperNat k) && ciStartsWith ks cs

/-- `\b` holds before the match: start of input or a non-word character. -/
def boundaryBefore : Option Char → Bool
  | none => true
  | some c => !isWordChar c

/-- `\b` holds after the match: end of input or a non-word character. -/
def boundaryAfter : List Char → Bool
  | [] => true
  | c :: _ => !isWordChar c

/-- `KEYWORD: \b(SELECT|FROM|...)\b` with `re.IGNORECASE`.  The alternatives
are tried in source order; the emitted value is the upper-cased keyword
(`value.upper()` in `Lexer.tokenize`).  Returns the keyword and the match
length. -/
def matchKeyword (prev : Option Char) (cs : List Char) : Option (String × Nat) :=
  if boundaryBefore prev then
    keywords.findSome? fun kw =>
      if ciStartsWith kw.data cs && boundaryAfter (cs.drop kw.data.length) then
        some (kw, kw.data.length)
      else none
  else none

/-- `ID: [a-zA-Z_][a-zA-Z0-9_]*`, greedy. -/
def matchId (cs : List Char) : Option Nat :=
  match cs with
  | [] => none
  | c :: rest =>
    if isAlphaChar c || c = '_' then
      some (1 + (rest.takeWhile isWordChar).length)
    else none

/-- Is `c` one of the single-character operators `[=<>*]`? -/
def isSingleOp (c : Char) : Bool := c = '=' || c = '<' || c = '>' || c = '*'

/-- `OP: !=|<=|>=|[=<>*]` — two-character alternatives first. -/
def matchOp (cs : List Char) : Option Nat :=
  match cs with
  | [] => none
  | [c1] => if isSingleOp c1 then some 1 else none
  | c1 :: c2 :: _ =>
    if (c1 = '!' || c1 = '<' || c1 = '>') && c2 = '=' then some 2
    else if isSingleOp c1 then some 1
    else none

/-- `DELIM: [(),;]`. -/
def matchDelim (cs : List Char) : Option Nat :=
  match cs with
  | [] => none
  | c :: _ => if c = '(' || c = ')' || c = ',' || c = ';' then some 1 else none

/-- Is `c` one of the whitespace characters of `SKIP: [ \t\n\r]+`? -/
def isSkipChar (c : Char) : Bool := c = ' ' || c = '\t' || c = '\n' || c = '\r'

/-- `SKIP: [ \t\n\r]+`, greedy. -/
def matchSkip (cs : List Char) : Option Nat :=
  let d := (cs.takeWhile isSkipChar).length
  if d = 0 then none else some d

/-- The string made of the first `n` characters of `cs` (`mo.group()`). -/
def takeStr (n : Nat) (cs : List Char) : String := String.mk (cs.take n)

/-- One step of `Lexer.tokenize`: classify the text at the current position
by trying the `TOKEN_SPEC` alternatives in order.  Returns the token to emit
(`none` for SKIP) and the number of characters consumed, or the
`ValueError` message of the MISMATCH case. -/
def nextToken (prev : Option Char) (i : Nat) (cs : List Char) :
    Except String (Option Token × Nat) :=
  match matchNumber cs with
  | some n => .ok (some ⟨"NUMBER", takeStr n cs, i⟩, n)
  | none =>
  match matchStringPat cs with
  | some n => .ok (some ⟨"STRING", takeStr n cs, i⟩, n)
  | none =>
  match matchKeyword prev cs with
  | some (kw, n) => .ok (some ⟨"KEYWORD", kw, i⟩, n)
  | none =>
  match matchId cs with
  | some n => .ok (some ⟨"ID", takeStr n cs, i⟩, n)
  | none =>
  match matchOp cs with
  | some n => .ok (some ⟨"OP", takeStr n cs, i⟩, n)
  | none =>
  match matchDelim cs with
  | some n => .ok (some ⟨"DELIM", takeStr n cs, i⟩, n)
  | none =>
  match matchSkip cs with
  | some n => .ok (none, n)
  | none =>
  match cs with
  | c :: _ =>
    .error ("Unexpected character " ++ sqStr ++ String.mk [c] ++ sqStr ++
      " at position " ++ toString i)
  | [] => .error "internal: scan at end of input"

/-- The scanning loop of `Lexer.tokenize` over the remaining characters.
`prev` is the character just before the current position (for `\b`), `i` the
current offset.  Every successful `nextToken` step consumes at least one
character, so a fuel budget of the input length suffices. -/
def scanToks : Nat → Option Char → Nat → List Char → Except String (List Token)
  | _, _, _, [] => .ok []
  | 0, _, _, _ :: _ => .error "internal: out of fuel"
  | fuel + 1, prev, i, c :: rest =>
    match nextToken prev i (c :: rest) with
    | .error e => .error e
    | .ok (tokOpt, n) =>
      match scanToks fuel (((c :: rest).take n).getLast?) (i + n)
          ((c :: rest).drop n) with
      | .error e => .error e
      | .ok toks =>
        match tokOpt with
        | some tk => .ok (tk :: toks)
        | none => .ok toks

/-- `Lexer.tokenize`: scan the whole input, then append the EOF token
`Token('EOF', '', len(code))`. -/
def tokenize (s : String) : Except String (List Token) :=
  match scanToks (s.data.length + 1) none 0 s.data with
  | .error e => .error e
  | .ok toks => .ok (toks ++ [⟨"EOF", "", s.data.length⟩])

/-- A literal value: `int(...)`, a string, or Python `None` (for `NULL`). -/
inductive Value where
  | intV (n : Int)
  | strV (s : String)
  | nullV
deriving DecidableEq, Repr

/-- Expression nodes: `Literal`, `ColumnRef`, `BinaryOp` of the source. -/
inductive Expr where
  | literal (value : Value)
  | columnRef (name : String)
  | binaryOp (left : Expr) (op : String) (right : Expr)
deriving DecidableEq, Repr

/-- `ColumnDef(name, data_type)`. -/
structure ColumnDef where
  name : String
  data_type : String
deriving DecidableEq, Repr

/-- `CreateTableStmt`: dataclass fields in `__init__` order
(`type` is inherited from `Statement` and therefore comes first). -/
structure CreateTableStmt where
  type : String
  table_name : String
  columns : List ColumnDef
deriving DecidableEq, Repr

/-- `InsertStmt`: dataclass fields in `__init__` order. -/
structure InsertStmt where
  type : String
  table_name : String
  values : List Expr
deriving DecidableEq, Repr

/-- The value of the local `projections` variable of `parse_select`:
the literal string `"*"` or the accumulated list of identifier values. -/
inductive Projections where
  | star
  | cols (names : List String)
deriving DecidableEq, Repr

/-- `SelectStmt`: the dataclass re-declares `type: str`, which in Python
keeps the field's inherited position, so the generated `__init__` signature
is `(type, from_table, selection=None, limit=None)`.  The dataclass defines
NO `projections` field; `parse_select` returns
`SelectStmt(projections, table_name, where_clause, limit_val)` with all
arguments positional, so the projections value is stored in the `type` slot.
The field is typed here with the values the parser actually stores in it. -/
structure SelectStmt where
  type : Projections
  from_table : String
  selection : Option Expr
  limit : Option Int
deriving DecidableEq, Repr

/-- The statement union returned by `Parser.parse`. -/
inductive Stmt where
  | createTable (s : CreateTableStmt)
  | insert (s : InsertStmt)
  | select (s : SelectStmt)
deriving DecidableEq, Repr

/-- Parser failure: `SyntaxError` models `Parser.error` (which prints and
calls `sys.exit(1)`); `indexOut` models the `IndexError` of reading past the
token list; `outOfFuel` is the modelling artefact of the fuel discipline. -/
inductive PError where
  | syntaxError (pos : Nat) (msg : String)
  | indexOut
  | outOfFuel
deriving DecidableEq, Repr

/-- `self.peek()`: the token at the cursor. -/
def peekT : List Token → Except PError Token
  | [] => .error .indexOut
  | t :: _ => .ok t

/-- `self.error(message)`: reports the position of the token at the current
cursor (only `pos` and the message argument are modelled; the printed
`Near: ...` context is presentation). -/
def errAt {α : Type} (ts : List Token) (msg : String) : Except PError α :=
  match ts with
  | [] => .error .indexOut
  | t :: _ => .error (.syntaxError t.pos msg)

/-- The expected-value check of `self.consume` (second check, after the
type check): compares `token.value.upper()` with `expected_value.upper()`. -/
def consumeVal (ev : Option String) (t : Token) (rest : List Token) :
    Except PError (Token × List Token) :=
  match ev with
  | some v =>
    if strUpper t.value = strUpper v then .ok (t, rest)
    else .error (.syntaxError t.pos
      ("Expected " ++ sqStr ++ v ++ sqStr ++ ", got " ++ sqStr ++ t.value ++ sqStr))
  | none => .ok (t, rest)

/-- `self.consume(expected_type, expected_value)`: checks the type first,
then the value, then advances the cursor. -/
def consumeTk (et ev : Option String) : List Token → Except PError (Token × List Token)
  | [] => .error .indexOut
  | t :: rest =>
    match et with
    | some e =>
      if t.type = e then consumeVal ev t rest
      else .error (.syntaxError t.pos ("Expected " ++ e ++ ", got " ++ t.type))
    | none => consumeVal ev t rest

/-- `str.strip("'")`: remove every leading and trailing single quote
(`parse_primary`'s treatment of STRING token values — interior `''`
sequences are left untouched). -/
def stripQuotes (s : String) : String :=
  String.mk ((((s.data.dropWhile (· = qc)).reverse.dropWhile (· = qc)).reverse))

/-- `int(...)` on a NUMBER token value (`-?\d+`). -/
def strToInt (s : String) : Int :=
  match s.data with
  | c :: rest =>
    if c = '-' then
      -(rest.foldl (fun a d => a * 10 + (d.toNat - 48)) 0 : Nat)
    else ((s.data.foldl (fun a d => a * 10 + (d.toNat - 48)) 0 : Nat) : Int)
  | [] => 0

mutual

/-- `parse_expression`. -/
def parseExpressionF : Nat → List Token → Except PError (Expr × List Token)
  | 0, _ => .error .outOfFuel
  | fuel + 1, ts => parseOrF fuel ts

/-- `parse_or`: one `parse_and`, then the OR loop. -/
def parseOrF : Nat → List Token → Except PError (Expr × List Token)
  | 0, _ => .error .outOfFuel
  | fuel + 1, ts => do
    let (node, ts) ← parseAndF fuel ts
    parseOrLoopF fuel node ts

/-- The `while self.peek().value == 'OR'` loop of `parse_or`. -/
def parseOrLoopF : Nat → Expr → List Token → Except PError (Expr × List Token)
  | 0, _, _ => .error .outOfFuel
  | fuel + 1, node, ts => do
    let t ← peekT ts
    if t.value = "OR" then do
      let (optk, ts) ← consumeTk none none ts
      let (right, ts) ← parseAndF fuel ts
      parseOrLoopF fuel (.binaryOp node optk.value right) ts
    else pure (node, ts)

/-- `parse_and`: one `parse_comparison`, then the AND loop. -/
def parseAndF : Nat → List Token → Except PError (Expr × List Token)
  | 0, _ => .error .outOfFuel
  | fuel + 1, ts => do
    let (node, ts) ← parseCompF fuel ts
    parseAndLoopF fuel node ts

/-- The `while self.peek().value == 'AND'` loop of `parse_and`. -/
def parseAndLoopF : Nat → Expr → List Token → Except PError (Expr × List Token)
  | 0, _, _ => .error .outOfFuel
  | fuel + 1, node, ts => do
    let t ← peekT ts
    if t.value = "AND" then do
      let (optk, ts) ← consumeTk none none ts
      let (right, ts) ← parseCompF fuel ts
      parseAndLoopF fuel (.binaryOp node optk.value right) ts
    else pure (node, ts)

/-- `parse_comparison`: one primary, then at most one comparison operator
(an OP token whose value is not `*`) and one more primary. -/
def parseCompF : Nat → List Token → Except PError (Expr × List Token)
  | 0, _ => .error .outOfFuel
  | fuel + 1, ts => do
    let (node, ts) ← parsePrimaryF fuel ts
    let t ← peekT ts
    if t.type = "OP" ∧ t.value ≠ "*" then do
      let (optk, ts) ← consumeTk none none ts
      let (right, ts) ← parsePrimaryF fuel ts
      pure (.binaryOp node optk.value right, ts)
    else pure (node, ts)

/-- `parse_primary`: NUMBER, STRING, `NULL`, identifier, or a
parenthesised expression; anything else is a syntax error. -/
def parsePrimaryF : Nat → List Token → Except PError (Expr × List Token)
  | 0, _ => .error .outOfFuel
  | fuel + 1, ts => do
    let t ← peekT ts
    if t.type = "NUMBER" then do
      let (tk, ts) ← consumeTk none none ts
      pure (.literal (.intV (strToInt tk.value)), ts)
    else if t.type = "STRING" then do
      let (tk, ts) ← consumeTk none none ts
      pure (.literal (.strV (stripQuotes tk.value)), ts)
    else if t.value = "NULL" then do
      let (_, ts) ← consumeTk none none ts
      pure (.literal .nullV, ts)
    else if t.type = "ID" then do
      let (tk, ts) ← consumeTk none none ts
      pure (.columnRef tk.value, ts)
    else if t.value = "(" then do
      let (_, ts) ← consumeTk (some "DELIM") (some "(") ts
      let (e, ts) ← parseExpressionF fuel ts
      let (_, ts) ← consumeTk (some "DELIM") (some ")") ts
      pure (e, ts)
    else errAt ts ("Unexpected token in expression: " ++ t.value)

end

/-- The column-definition loop of `parse_create`: each iteration consumes an
ID and a KEYWORD, validates the data type, then either stops before a `)` or
consumes a comma and continues. -/
def parseColsLoopF : Nat → List ColumnDef → List Token →
    Except PError (List ColumnDef × List Token)
  | 0, _, _ => .error .outOfFuel
  | fuel + 1, acc, ts => do
    let (ctk, ts) ← consumeTk (some "ID") none ts
    let (ktk, ts) ← consumeTk (some "KEYWORD") none ts
    if ktk.value = "INT" ∨ ktk.value = "BIGINT" ∨ ktk.value = "TEXT" then do
      let acc := acc ++ [⟨ctk.value, ktk.value⟩]
      let t ← peekT ts
      if t.value = ")" then pure (acc, ts)
      else do
        let (_, ts) ← consumeTk (some "DELIM") (some ",") ts
        parseColsLoopF fuel acc ts
    else errAt ts ("Unsupported data type " ++ ktk.value)

/-- `parse_create`. -/
def parseCreateF (fuel : Nat) (ts : List Token) : Except PError (Stmt × List Token) := do
  let (_, ts) ← consumeTk (some "KEYWORD") (some "CREATE") ts
  let (_, ts) ← consumeTk (some "KEYWORD") (some "TABLE") ts
  let (ntk, ts) ← consumeTk (some "ID") none ts
  let (_, ts) ← consumeTk (some "DELIM") (some "(") ts
  let (cols, ts) ← parseColsLoopF fuel [] ts
  let (_, ts) ← consumeTk (some "DELIM") (some ")") ts
  pure (.createTable ⟨"CREATE_TABLE", ntk.value, cols⟩, ts)

/-- The value loop of `parse_insert`: an expression, then either stop before
`)` or consume a comma and continue. -/
def parseValuesLoopF : Nat → List Expr → List Token →
    Except PError (List Expr × List Token)
  | 0, _, _ => .error .outOfFuel
  | fuel + 1, acc, ts => do
    let (e, ts) ← parseExpressionF fuel ts
    let acc := acc ++ [e]
    let t ← peekT ts
    if t.value = ")" then pure (acc, ts)
    else do
      let (_, ts) ← consumeTk (some "DELIM") (some ",") ts
      parseValuesLoopF fuel acc ts

/-- `parse_insert`. -/
def parseInsertF (fuel : Nat) (ts : List Token) : Except PError (Stmt × List Token) := do
  let (_, ts) ← consumeTk (some "KEYWORD") (some "INSERT") ts
  let (_, ts) ← consumeTk (some "KEYWORD") (some "INTO") ts
  let (ntk, ts) ← consumeTk (some "ID") none ts
  let (_, ts) ← consumeTk (some "KEYWORD") (some "VALUES") ts
  let (_, ts) ← consumeTk (some "DELIM") (some "(") ts
  let (vals, ts) ← parseValuesLoopF fuel [] ts
  let (_, ts) ← consumeTk (some "DELIM") (some ")") ts
  pure (.insert ⟨"INSERT", ntk.value, vals⟩, ts)

/-- The projection loop of `parse_select`: an ID, then stop unless the next
token is a comma. -/
def parseProjLoopF : Nat → List String → List Token →
    Except PError (List String × List Token)
  | 0, _, _ => .error .outOfFuel
  | fuel + 1, acc, ts => do
    let (tk, ts) ← consumeTk (some "ID") none ts
    let acc := acc ++ [tk.value]
    let t ← peekT ts
    if t.value ≠ "," then pure (acc, ts)
    else do
      let (_, ts) ← consumeTk (some "DELIM") (some ",") ts
      parseProjLoopF fuel acc ts

/-- Python truthiness of the `projections` local: `if not projections`. -/
def projIsEmpty : Projections → Bool
  | .star => false
  | .cols [] => true
  | .cols (_ :: _) => false

/-- `parse_select`: projections, `FROM`, table name, optional `WHERE`
expression, optional `LIMIT` number; returns
`SelectStmt(projections, table_name, where_clause, limit_val)` — all
positional, so the projections land in the `type` slot. -/
def parseSelectF (fuel : Nat) (ts : List Token) : Except PError (Stmt × List Token) := do
  let (_, ts) ← consumeTk (some "KEYWORD") (some "SELECT") ts
  let t ← peekT ts
  let (proj, ts) ←
    if t.value = "*" then do
      let (_, ts) ← consumeTk (some "OP") (some "*") ts
      pure (Projections.star, ts)
    else do
      let (names, ts) ← parseProjLoopF fuel [] ts
      pure (Projections.cols names, ts)
  if projIsEmpty proj then
    errAt ts ("SELECT requires at least one column or " ++ sqStr ++ "*" ++ sqStr)
  else do
    let (_, ts) ← consumeTk (some "KEYWORD") (some "FROM") ts
    let (ttk, ts) ← consumeTk (some "ID") none ts
    let t ← peekT ts
    let (whereE, ts) ←
      if t.value = "WHERE" then do
        let (_, ts) ← consumeTk (some "KEYWORD") (some "WHERE") ts
        let (e, ts) ← parseExpressionF fuel ts
        pure (some e, ts)
      else pure (none, ts)
    let t ← peekT ts
    let (limitV, ts) ←
      if t.value = "LIMIT" then do
        let (_, ts) ← consumeTk (some "KEYWORD") (some "LIMIT") ts
        let (ntk, ts) ← consumeTk (some "NUMBER") none ts
        pure (some (strToInt ntk.value), ts)
      else pure (none, ts)
    pure (.select ⟨proj, ttk.value, whereE, limitV⟩, ts)

/-- `Parser.parse`: dispatch on the first token's value. -/
def parseStmtF : Nat → List Token → Except PError (Stmt × List Token)
  | 0, _ => .error .outOfFuel
  | fuel + 1, ts => do
    let t ← peekT ts
    if t.value = "CREATE" then parseCreateF fuel ts
    else if t.value = "INSERT" then parseInsertF fuel ts
    else if t.value = "SELECT" then parseSelectF fuel ts
    else errAt ts ("Unsupported statement start: " ++ t.value)

/-- Fuel budget: strictly larger than any recursion depth reachable on a
token list of this length (each nested call or loop iteration consumes at
least one token or descends one grammar level of at most five). -/
def fuelFor (ts : List Token) : Nat := 8 * ts.length + 8

/-- Run the parser on a token list, as `Parser(tokens, q).parse()` does.
The returned token list is the unconsumed suffix: `parse` never checks that
the cursor reached the EOF token, so trailing tokens are simply ignored. -/
def parseTokens (ts : List Token) : Except PError (Stmt × List Token) :=
  parseStmtF (fuelFor ts) ts

/-- A pipeline failure: either the lexer's `ValueError` message or a parser
error. -/
inductive QueryError where
  | lexError (msg : String)
  | parseError (e : PError)
deriving DecidableEq, Repr

/-- The tokenize-then-parse pipeline of `main`:
`Lexer(query)` followed by `Parser(lexer.tokens, query).parse()`. -/
def runQuery (s : String) : Except QueryError (Stmt × List Token) :=
  match tokenize s with
  | .error m => .error (.lexError m)
  | .ok toks =>
    match parseTokens toks with
    | .error e => .error (.parseError e)
    | .ok r => .ok r

/-- Decidable equality of parse outcomes, so concrete runs can be settled
by `decide`. -/
instance {ε α : Type} [DecidableEq ε] [DecidableEq α] : DecidableEq (Except ε α) := by
  intro a b
  cases a with
  | error e₁ =>
    cases b with
    | error e₂ =>
      exact if h : e₁ = e₂ then .isTrue (by rw [h]) else
        .isFalse (fun hh => h (Except.error.inj hh))
    | ok _ => exact .isFalse (fun hh => Except.noConfusion hh)
  | ok a₁ =>
    cases b with
    | error _ => exact .isFalse (fun hh => Except.noConfusion hh)
    | ok a₂ =>
      exact if h : a₁ = a₂ then .isTrue (by rw [h]) else
        .isFalse (fun hh => h (Except.ok.inj hh))

/-- The string literal text used by the escaped-quote claims: `'it''s'`. -/
def itsLit : String := String.mk [qc, 'i', 't', qc, qc, 's', qc]

/-- The value the parser actually stores for that literal: `it''s`. -/
def itsStoredVal : String := String.mk ['i', 't', qc, qc, 's']

/-- The value the claim expects after un-escaping: `it's`. -/
def itsClaimedVal : String := String.mk ['i', 't', qc, 's']

/-- The query `INSERT INTO t VALUES ('it''s')`. -/
def itsQuery : String := "INSERT INTO t VALUES (" ++ itsLit ++ ")"

/-- Token-shape recogniser for a column-definition list
`c1 T1, ..., cn Tn` (n ≥ 1): the tokens spell the given (name, type) pairs
as ID/KEYWORD pairs separated by comma delimiters, with arbitrary
positions.  Returns the tokens following the last type keyword. -/
def matchCols : List (String × String) → List Token → Option (List Token)
  | [(nm, ty)], a :: b :: rest =>
    if a.type = "ID" ∧ a.value = nm ∧ b.type = "KEYWORD" ∧ b.value = ty
    then some rest else none
  | (nm, ty) :: m :: ms, a :: b :: c :: rest =>
    if a.type = "ID" ∧ a.value = nm ∧ b.type = "KEYWORD" ∧ b.value = ty ∧
       c.type = "DELIM" ∧ c.value = ","
    then matchCols (m :: ms) rest else none
  | _, _ => none

/-- Token-shape recogniser for `CREATE TABLE t ( <cols> )`: keyword tokens
`CREATE` and `TABLE`, the table-name ID, the parenthesised column list.
Returns the tokens following the closing parenthesis. -/
def matchCreate (tn : String) (cols : List (String × String))
    (ts : List Token) : Option (List Token) :=
  match ts with
  | k1 :: k2 :: nm :: op :: mid =>
    if k1.type = "KEYWORD" ∧ k1.value = "CREATE" ∧
       k2.type = "KEYWORD" ∧ k2.value = "TABLE" ∧
       nm.type = "ID" ∧ nm.value = tn ∧
       op.type = "DELIM" ∧ op.value = "(" then
      match matchCols cols mid with
      | some (cp :: rest) =>
        if cp.type = "DELIM" ∧ cp.value = ")" then some rest else none
      | _ => none
    else none
  | _ => none

/-- Claim C1: for `SELECT * FROM items` parsing succeeds, but the statement
object has no projections field at all: the `SelectStmt` dataclass only
declares `from_table`, `selection`, `limit` and the inherited `type`, and
`parse_select` passes the projections value positionally into the first
`__init__` slot, which is `type`.  The wildcard marker therefore ends up in
the `type` field, as this evaluation of the embedded code shows (the
repository's own test asserts `ast.projections == "*"` and would fail with
an `AttributeError`). -/
theorem select_star_projections_in_type_slot :
    runQuery "SELECT * FROM items" =
      .ok (.select { type := Projections.star, from_table := "items",
                     selection := none, limit := none },
           [⟨"EOF", "", 19⟩]) := by
  rfl

/-- Claim C2, counterexample: the parser stores `'it''s'` with only the
outer quotes stripped, so the stored value is `it''s`, not the un-escaped
`it's` the claim requires. -/
theorem string_literal_escape_not_unescaped :
    runQuery itsQuery =
      .ok (.insert { type := "INSERT", table_name := "t",
                     values := [.literal (.strV itsStoredVal)] },
           [⟨"EOF", "", 30⟩]) ∧
    itsStoredVal ≠ itsClaimedVal := by
  exact ⟨by rfl, by decide⟩

/-- Claim C2, amended: lexing `'it''s'` does produce a single String token
(the `''|[^']` body of the STRING pattern does not stop at the escaped
quote), but `parse_primary` only applies `str.strip("'")` to the token text,
so the stored Literal value keeps the interior `''` verbatim: `it''s`. -/
theorem string_literal_single_token_strip_only :
    tokenize itsLit = .ok [⟨"STRING", itsLit, 0⟩, ⟨"EOF", "", 7⟩] ∧
    stripQuotes itsLit = itsStoredVal ∧
    runQuery itsQuery =
      .ok (.insert { type := "INSERT", table_name := "t",
                     values := [.literal (.strV itsStoredVal)] },
           [⟨"EOF", "", 30⟩]) := by
  exact ⟨by rfl, by rfl, by rfl⟩

/-- Claim C3, counterexample: the NUMBER pattern is `-?\d+`, so
`SELECT * FROM t LIMIT -1` parses successfully and stores the negative
limit `-1`, contradicting the claim that no input can produce a Select
statement with a negative limit. -/
theorem negative_limit_accepted :
    runQuery "SELECT * FROM t LIMIT -1" =
      .ok (.select { type := Projections.star, from_table := "t",
                     selection := none, limit := some (-1) },
           [⟨"EOF", "", 24⟩]) ∧
    (-1 : Int) < 0 := by
  exact ⟨by rfl, by decide⟩

/-- Claim C3, amended: a present LIMIT clause stores the integer parsed
from a single NUMBER token; since the NUMBER pattern admits a leading
minus sign, that integer may be negative. -/
theorem limit_from_number_token :
    runQuery ("SELECT id FROM users WHERE age >= 18 AND status = " ++ sqStr ++
        "active" ++ sqStr ++ " LIMIT 10") =
      .ok (.select { type := Projections.cols ["id"], from_table := "users",
                     selection := some (.binaryOp
                       (.binaryOp (.columnRef "age") ">=" (.literal (.intV 18)))
                       "AND"
                       (.binaryOp (.columnRef "status") "=" (.literal (.strV "active")))),
                     limit := some 10 },
           [⟨"EOF", "", 67⟩]) ∧
    runQuery "SELECT * FROM t LIMIT -1" =
      .ok (.select { type := Projections.star, from_table := "t",
                     selection := none, limit := some (-1) },
           [⟨"EOF", "", 24⟩]) ∧
    strToInt "10" = 10 ∧ strToInt "-1" = -1 := by
  exact ⟨by rfl, by rfl, by rfl, by rfl⟩

/-- Claim C4, counterexample: `TIMESTAMP` is not in the keyword set, so it
lexes as an ID token and `consume('KEYWORD')` rejects it with
`Expected KEYWORD, got ID` — not with the claimed
`Unsupported data type TIMESTAMP`, which is only reached for KEYWORD
tokens. -/
theorem nonkeyword_type_not_unsupported_message :
    runQuery "CREATE TABLE t (a TIMESTAMP)" =
      .error (.parseError (.syntaxError 18 "Expected KEYWORD, got ID")) ∧
    ("Expected KEYWORD, got ID" : String) ≠ "Unsupported data type TIMESTAMP" := by
  exact ⟨by rfl, by decide⟩

/-- Claim C4, amended: the type position must hold a KEYWORD token.  A
keyword other than INT/BIGINT/TEXT fails with `Unsupported data type <X>`
(reported, as in the source, at the position of the token after the
keyword); a non-keyword token fails earlier, inside `consume`, with
`Expected KEYWORD, got <kind>`.  Matching stays case-insensitive with the
type stored uppercase, because the lexer upper-cases keyword values. -/
theorem create_type_error_messages :
    runQuery "CREATE TABLE t (a NULL)" =
      .error (.parseError (.syntaxError 22 "Unsupported data type NULL")) ∧
    runQuery "CREATE TABLE t (a TIMESTAMP)" =
      .error (.parseError (.syntaxError 18 "Expected KEYWORD, got ID")) ∧
    runQuery "CREATE TABLE t (a int)" =
      .ok (.createTable { type := "CREATE_TABLE", table_name := "t",
                          columns := [⟨"a", "INT"⟩] },
           [⟨"EOF", "", 22⟩]) := by
  exact ⟨by rfl, by rfl, by rfl⟩

/-- Claim C5: in `a = 1 OR b = 2 AND c = 3` the AND binds tighter, so the
root of the WHERE tree is the OR node and its right child is the AND node;
and OR chains and AND chains associate to the left. -/
theorem or_and_precedence :
    runQuery "SELECT x FROM t WHERE a = 1 OR b = 2 AND c = 3" =
      .ok (.select { type := Projections.cols ["x"], from_table := "t",
                     selection := some (.binaryOp
                       (.binaryOp (.columnRef "a") "=" (.literal (.intV 1)))
                       "OR"
                       (.binaryOp
                         (.binaryOp (.columnRef "b") "=" (.literal (.intV 2)))
                         "AND"
                         (.binaryOp (.columnRef "c") "=" (.literal (.intV 3))))),
                     limit := none },
           [⟨"EOF", "", 46⟩]) ∧
    runQuery "SELECT x FROM t WHERE a = 1 OR b = 2 OR c = 3" =
      .ok (.select { type := Projections.cols ["x"], from_table := "t",
                     selection := some (.binaryOp
                       (.binaryOp
                         (.binaryOp (.columnRef "a") "=" (.literal (.intV 1)))
                         "OR"
                         (.binaryOp (.columnRef "b") "=" (.literal (.intV 2))))
                       "OR"
                       (.binaryOp (.columnRef "c") "=" (.literal (.intV 3)))),
                     limit := none },
           [⟨"EOF", "", 45⟩]) ∧
    runQuery "SELECT x FROM t WHERE a = 1 AND b = 2 AND c = 3" =
      .ok (.select { type := Projections.cols ["x"], from_table := "t",
                     selection := some (.binaryOp
                       (.binaryOp
                         (.binaryOp (.columnRef "a") "=" (.literal (.intV 1)))
                         "AND"
                         (.binaryOp (.columnRef "b") "=" (.literal (.intV 2))))
                       "AND"
                       (.binaryOp (.columnRef "c") "=" (.literal (.intV 3)))),
                     limit := none },
           [⟨"EOF", "", 47⟩]) := by
  exact ⟨by rfl, by rfl, by rfl⟩

/-- Claim C6: the comparison production consumes at most one comparison
operator.  On the tokens of `a = b = c` it returns `a = b` and leaves the
second `=` at the head of the unconsumed suffix, building no chained tree;
in an INSERT value list an outer production then rejects that dangling
token (`consume('DELIM', ',')` sees the OP token). -/
theorem comparison_non_chaining :
    tokenize "a = b = c" =
      .ok [⟨"ID", "a", 0⟩, ⟨"OP", "=", 2⟩, ⟨"ID", "b", 4⟩, ⟨"OP", "=", 6⟩,
           ⟨"ID", "c", 8⟩, ⟨"EOF", "", 9⟩] ∧
    parseCompF 56
        [⟨"ID", "a", 0⟩, ⟨"OP", "=", 2⟩, ⟨"ID", "b", 4⟩, ⟨"OP", "=", 6⟩,
         ⟨"ID", "c", 8⟩, ⟨"EOF", "", 9⟩] =
      .ok (.binaryOp (.columnRef "a") "=" (.columnRef "b"),
           [⟨"OP", "=", 6⟩, ⟨"ID", "c", 8⟩, ⟨"EOF", "", 9⟩]) ∧
    runQuery "INSERT INTO t VALUES (a = b = c)" =
      .error (.parseError (.syntaxError 28 "Expected DELIM, got OP")) := by
  exact ⟨by rfl, by rfl, by rfl⟩

/-- Reducing a bind of a successful `Except` computation. -/
@[simp]
theorem except_ok_bind {ε α β : Type} (a : α) (f : α → Except ε β) :
    (Except.ok a : Except ε α) >>= f = f a := rfl

/-- Reducing a bind of a failed `Except` computation. -/
@[simp]
theorem except_error_bind {ε α β : Type} (e : ε) (f : α → Except ε β) :
    (Except.error e : Except ε α) >>= f = Except.error e := rfl

/-- `pure` on `Except` is `ok`. -/
@[simp]
theorem except_pure_eq {ε α : Type} (a : α) :
    (pure a : Except ε α) = Except.ok a := rfl

/-- A recognised column list is non-empty. -/
theorem matchCols_ne_nil (cols : List (String × String)) (ts rest : List Token)
    (h : matchCols cols ts = some rest) : cols ≠ [] := by
  intro hc
  subst hc
  cases ts with
  | nil => simp [matchCols] at h
  | cons a tl => simp [matchCols] at h

/-- A recognised column list has no more entries than there are tokens. -/
theorem matchCols_length (cols : List (String × String)) :
    ∀ (ts rest : List Token), matchCols cols ts = some rest →
      cols.length ≤ ts.length := by
  induction cols with
  | nil =>
    intro ts rest h
    exact absurd h (by cases ts <;> simp [matchCols])
  | cons hd tl ih =>
    intro ts rest h
    obtain ⟨nm, ty⟩ := hd
    cases tl with
    | nil =>
      match ts with
      | [] => simp [matchCols] at h
      | [a] => simp [matchCols] at h
      | a :: b :: rest0 => simp
    | cons m ms =>
      match ts with
      | [] => simp [matchCols] at h
      | [a] => simp [matchCols] at h
      | [a, b] => simp [matchCols] at h
      | a :: b :: c :: rest0 =>
        simp only [matchCols] at h
        split at h
        · have := ih rest0 rest h
          simp at this ⊢
          omega
        · exact absurd h (by simp)

/-- The column loop of `parse_create` consumes a recognised column list in
declaration order, appending each `(name, type)` pair to the accumulator,
and stops in front of the closing parenthesis. -/
theorem parseColsLoopF_ok (cols : List (String × String)) :
    ∀ (f : Nat) (acc : List ColumnDef) (ts rest : List Token) (cp : Token),
      matchCols cols ts = some (cp :: rest) →
      cp.value = ")" →
      (∀ c ∈ cols, c.2 = "INT" ∨ c.2 = "BIGINT" ∨ c.2 = "TEXT") →
      cols.length ≤ f →
      parseColsLoopF f acc ts =
        .ok (acc ++ cols.map (fun c => ⟨c.1, c.2⟩), cp :: rest) := by
  induction cols with
  | nil =>
    intro f acc ts rest cp hm
    exact absurd hm (by cases ts <;> simp [matchCols])
  | cons hd tl ih =>
    intro f acc ts rest cp hm hcp hty hf
    obtain ⟨nm, ty⟩ := hd
    cases tl with
    | nil =>
      match ts, hm with
      | a :: b :: rest0, hm =>
        simp only [matchCols] at hm
        split at hm
        · rename_i hc
          obtain ⟨ha, hav, hb, hbv⟩ := hc
          simp only [Option.some.injEq] at hm
          subst hm
          match f, hf with
          | f' + 1, _ =>
            have hty' := hty (nm, ty) (by simp)
            simp only at hty'
            rcases hty' with h3 | h3 | h3 <;>
              simp [parseColsLoopF, consumeTk, consumeVal, peekT,
                ha, hav, hb, hbv, h3, hcp]
        · exact absurd hm (by simp)
    | cons m ms =>
      match ts, hm with
      | a :: b :: c :: rest0, hm =>
        simp only [matchCols] at hm
        split at hm
        · rename_i hc
          obtain ⟨ha, hav, hb, hbv, hct, hcv⟩ := hc
          match f, hf with
          | f' + 1, hf =>
            have hty' := hty (nm, ty) (by simp)
            simp only at hty'
            have hrec := ih f' (acc ++ [⟨nm, ty⟩]) rest0 rest cp hm hcp
              (fun x hx => hty x (by simp [hx]))
              (by simp at hf ⊢; omega)
            rcases hty' with h3 | h3 | h3 <;> subst h3 <;>
              simp [parseColsLoopF, consumeTk, consumeVal, peekT,
                ha, hav, hb, hbv, hct, hcv, hrec,
                (by decide : ("," : String) ≠ ")")]
        · exact absurd hm (by simp)

/-- Claim C7: for every input string whose token stream spells
`CREATE TABLE t (c1 T1, ..., cn Tn)` with n ≥ 1 columns (`matchCreate`
recognises the shape, which forces at least one column definition) and
every type among INT, BIGINT, TEXT, parsing succeeds and yields a
CreateTable statement holding the table name and the column definitions in
declaration order; the resulting column list is non-empty. -/
theorem create_table_valid_parses (s tn : String) (cols : List (String × String))
    (toks rest : List Token)
    (htok : tokenize s = .ok toks)
    (hm : matchCreate tn cols toks = some rest)
    (hty : ∀ c ∈ cols, c.2 = "INT" ∨ c.2 = "BIGINT" ∨ c.2 = "TEXT") :
    cols ≠ [] ∧
    parseTokens toks =
      .ok (.createTable ⟨"CREATE_TABLE", tn, cols.map (fun c => ⟨c.1, c.2⟩)⟩,
           rest) := by
  match toks, hm with
  | k1 :: k2 :: nm :: op :: mid, hm =>
    simp only [matchCreate] at hm
    split at hm
    · rename_i hhdr
      obtain ⟨h1t, h1v, h2t, h2v, hnmt, hnmv, hopt, hopv⟩ := hhdr
      split at hm
      · rename_i cp rest2 hmc
        split at hm
        · rename_i hcp
          obtain ⟨hcpt, hcpv⟩ := hcp
          simp only [Option.some.injEq] at hm
          subst hm
          refine ⟨matchCols_ne_nil cols mid (cp :: rest2) hmc, ?_⟩
          have hlen : cols.length ≤ mid.length :=
            matchCols_length cols mid _ hmc
          have hfuel : fuelFor (k1 :: k2 :: nm :: op :: mid) =
              (8 * mid.length + 39) + 1 := by
            simp [fuelFor]
            omega
          rw [parseTokens, hfuel]
          have hloop := parseColsLoopF_ok cols (8 * mid.length + 39) [] mid
            rest2 cp hmc hcpv hty (by omega)
          simp [parseStmtF, parseCreateF, peekT, consumeTk, consumeVal,
            h1t, h1v, h2t, h2v, hnmt, hnmv, hopt, hopv, hcpt, hcpv, hloop]
        · exact absurd hm (by simp)
      · exact absurd hm (by simp)
    · exact absurd hm (by simp)

/-- Witness for C7 at `create table users (id int, name TEXT)` (also
exercising the case-insensitive, stored-uppercase type keywords). -/
theorem create_table_valid_parses_witness :
    ([("id", "INT"), ("name", "TEXT")] : List (String × String)) ≠ [] ∧
    parseTokens
        [⟨"KEYWORD", "CREATE", 0⟩, ⟨"KEYWORD", "TABLE", 7⟩, ⟨"ID", "users", 13⟩,
         ⟨"DELIM", "(", 19⟩, ⟨"ID", "id", 20⟩, ⟨"KEYWORD", "INT", 23⟩,
         ⟨"DELIM", ",", 26⟩, ⟨"ID", "name", 28⟩, ⟨"KEYWORD", "TEXT", 33⟩,
         ⟨"DELIM", ")", 37⟩, ⟨"EOF", "", 38⟩] =
      .ok (.createTable ⟨"CREATE_TABLE", "users",
             [⟨"id", "INT"⟩, ⟨"name", "TEXT"⟩]⟩,
           [⟨"EOF", "", 38⟩]) :=
  create_table_valid_parses "create table users (id int, name TEXT)" "users"
    [("id", "INT"), ("name", "TEXT")]
    [⟨"KEYWORD", "CREATE", 0⟩, ⟨"KEYWORD", "TABLE", 7⟩, ⟨"ID", "users", 13⟩,
     ⟨"DELIM", "(", 19⟩, ⟨"ID", "id", 20⟩, ⟨"KEYWORD", "INT", 23⟩,
     ⟨"DELIM", ",", 26⟩, ⟨"ID", "name", 28⟩, ⟨"KEYWORD", "TEXT", 33⟩,
     ⟨"DELIM", ")", 37⟩, ⟨"EOF", "", 38⟩]
    [⟨"EOF", "", 38⟩] (by rfl) (by rfl) (by decide)

/-- Every token emitted by a successful `nextToken` step carries one of the
`TOKEN_SPEC` kind names, never `EOF`. -/
theorem nextToken_no_eof (prev : Option Char) (i : Nat) (cs : List Char)
    (tk : Token) (n : Nat) (h : nextToken prev i cs = .ok (some tk, n)) :
    tk.type ≠ "EOF" := by
  unfold nextToken at h
  split at h
  · simp only [Except.ok.injEq, Prod.mk.injEq, Option.some.injEq] at h
    obtain ⟨h1, h2⟩ := h; subst h1; simp
  · split at h
    · simp only [Except.ok.injEq, Prod.mk.injEq, Option.some.injEq] at h
      obtain ⟨h1, h2⟩ := h; subst h1; simp
    · split at h
      · simp only [Except.ok.injEq, Prod.mk.injEq, Option.some.injEq] at h
        obtain ⟨h1, h2⟩ := h; subst h1; simp
      · split at h
        · simp only [Except.ok.injEq, Prod.mk.injEq, Option.some.injEq] at h
          obtain ⟨h1, h2⟩ := h; subst h1; simp
        · split at h
          · simp only [Except.ok.injEq, Prod.mk.injEq, Option.some.injEq] at h
            obtain ⟨h1, h2⟩ := h; subst h1; simp
          · split at h
            · simp only [Except.ok.injEq, Prod.mk.injEq, Option.some.injEq] at h
              obtain ⟨h1, h2⟩ := h; subst h1; simp
            · split at h
              · simp at h
              · split at h
                · exact Except.noConfusion h
                · exact Except.noConfusion h

/-- No token produced by the scanning loop of `Lexer.tokenize` has type
`EOF`. -/
theorem scanToks_no_eof (f : Nat) :
    ∀ (prev : Option Char) (i : Nat) (cs : List Char) (body : List Token),
      scanToks f prev i cs = .ok body → ∀ t ∈ body, t.type ≠ "EOF" := by
  induction f with
  | zero =>
    intro prev i cs body h t ht
    cases cs with
    | nil =>
      simp only [scanToks, Except.ok.injEq] at h
      subst h; simp at ht
    | cons c rest => simp [scanToks] at h
  | succ f ih =>
    intro prev i cs body h t ht
    cases cs with
    | nil =>
      simp only [scanToks, Except.ok.injEq] at h
      subst h; simp at ht
    | cons c rest =>
      unfold scanToks at h
      split at h
      · exact Except.noConfusion h
      · rename_i tokOpt n heq
        split at h
        · exact Except.noConfusion h
        · rename_i toks hscan
          split at h
          · rename_i tk
            simp only [Except.ok.injEq] at h
            subst h
            cases ht with
            | head => exact nextToken_no_eof prev i (c :: rest) t n heq
            | tail _ hmem => exact ih _ _ _ _ hscan t hmem
          · simp only [Except.ok.injEq] at h
            subst h
            exact ih _ _ _ _ hscan t ht

/-- Claim C8: whenever tokenization succeeds, the token list splits as a
body followed by exactly one end-of-input token: the `EOF` token is the
last element, its position is the source length, and no token of the body
has type `EOF` (every scanned token carries a `TOKEN_SPEC` kind). -/
theorem tokenize_single_eof (s : String) (toks : List Token)
    (h : tokenize s = .ok toks) :
    ∃ body, toks = body ++ [⟨"EOF", "", s.length⟩] ∧
      ∀ t ∈ body, t.type ≠ "EOF" := by
  unfold tokenize at h
  split at h
  · exact Except.noConfusion h
  · rename_i body hscan
    simp only [Except.ok.injEq] at h
    refine ⟨body, ?_, scanToks_no_eof _ _ _ _ _ hscan⟩
    rw [← h]
    rfl

/-- Witness for C8: the token stream of `SELECT 1` ends with its single
EOF token at position 8. -/
theorem tokenize_single_eof_witness :
    ∃ body, ([⟨"KEYWORD", "SELECT", 0⟩, ⟨"NUMBER", "1", 7⟩,
              ⟨"EOF", "", 8⟩] : List Token) =
      body ++ [⟨"EOF", "", 8⟩] ∧ ∀ t ∈ body, t.type ≠ "EOF" :=
  tokenize_single_eof "SELECT 1"
    [⟨"KEYWORD", "SELECT", 0⟩, ⟨"NUMBER", "1", 7⟩, ⟨"EOF", "", 8⟩] (by rfl)

/-- Claim C9: the tokenize-then-parse pipeline is a pure function of the
input string — no state is shared between runs in the embedding, mirroring
that `Lexer` and `Parser` are freshly constructed per invocation and
mutate only their own fields — so two runs on the same input that both
succeed produce structurally equal ASTs. -/
theorem pipeline_deterministic (s : String) (r₁ r₂ : Stmt × List Token)
    (h₁ : runQuery s = .ok r₁) (h₂ : runQuery s = .ok r₂) : r₁ = r₂ := by
  rw [h₁] at h₂
  exact Except.ok.inj h₂

/-- Witness for C9 at the concrete input `SELECT * FROM items`. -/
theorem pipeline_deterministic_witness :
    ((Stmt.select { type := Projections.star, from_table := "items",
                    selection := none, limit := none },
      [⟨"EOF", "", 19⟩]) : Stmt × List Token) =
    (Stmt.select { type := Projections.star, from_table := "items",
                   selection := none, limit := none },
     [⟨"EOF", "", 19⟩]) :=
  pipeline_deterministic "SELECT * FROM items" _ _ (by rfl) (by rfl)

/-- Claim C10, counterexample: `SELECT x FROM t WHERE a * b` does NOT fail:
`parse_comparison` refuses to consume the `*`, the WHERE clause becomes the
bare column reference `a`, and `parse` returns successfully with the
dangling `* b` tokens simply left unconsumed (the driver never requires the
cursor to reach EOF). -/
theorem where_star_parse_succeeds :
    runQuery "SELECT x FROM t WHERE a * b" =
      .ok (.select { type := Projections.cols ["x"], from_table := "t",
                     selection := some (.columnRef "a"), limit := none },
           [⟨"OP", "*", 24⟩, ⟨"ID", "b", 26⟩, ⟨"EOF", "", 27⟩]) := by
  rfl

/-- Claim C10, amended: `*` lexes as an Operator token but is never
consumed as a comparison operator — the accepted comparison operators are
exactly `=`, `!=`, `<`, `<=`, `>`, `>=`, and after a primary a following
`*` is left unconsumed.  In a top-level WHERE clause the parse then
*succeeds* with the dangling tokens ignored; only an outer production such
as the INSERT value list turns the dangling `*` into a syntax error. -/
theorem star_not_comparison_operator :
    (∀ op ∈ (["=", "!=", "<", "<=", ">", ">="] : List String),
      parseCompF 8 [⟨"ID", "a", 0⟩, ⟨"OP", op, 2⟩, ⟨"ID", "b", 4⟩, ⟨"EOF", "", 5⟩] =
        .ok (.binaryOp (.columnRef "a") op (.columnRef "b"), [⟨"EOF", "", 5⟩])) ∧
    parseCompF 8 [⟨"ID", "a", 0⟩, ⟨"OP", "*", 2⟩, ⟨"ID", "b", 4⟩, ⟨"EOF", "", 5⟩] =
      .ok (.columnRef "a", [⟨"OP", "*", 2⟩, ⟨"ID", "b", 4⟩, ⟨"EOF", "", 5⟩]) ∧
    runQuery "SELECT x FROM t WHERE a * b" =
      .ok (.select { type := Projections.cols ["x"], from_table := "t",
                     selection := some (.columnRef "a"), limit := none },
           [⟨"OP", "*", 24⟩, ⟨"ID", "b", 26⟩, ⟨"EOF", "", 27⟩]) ∧
    runQuery "INSERT INTO t VALUES (a * b)" =
      .error (.parseError (.syntaxError 24 "Expected DELIM, got OP")) := by
  exact ⟨by decide, by rfl, by rfl, by rfl⟩

end DbCli
